import Mathlib

/-!
Shallow embedding of the budget tracker (`src/app.py`): the Ledger Store
(`load_data` / `save_data`, lines 14-43) and the Forecast Engine
(lines 121-165).  Python floats are modelled as exact rationals, calendar
dates as (year, month, day) triples of naturals, and the pandas expense
table as a list of rows in insertion order.
-/

/-- Calendar date, as Python `datetime.date`. -/
structure Date where
  year : Nat
  month : Nat
  day : Nat
deriving DecidableEq, Repr

/-- Python date comparison `a <= b`: lexicographic on (year, month, day). -/
def date_le (a b : Date) : Bool :=
  a.year < b.year || (a.year == b.year &&
    (a.month < b.month || (a.month == b.month && (a.day < b.day || a.day == b.day))))

/-- Line 126: `today.replace(day=1)` — the first day of today's month. -/
def start_of_month (t : Date) : Date := ⟨t.year, t.month, 1⟩

/-- Expense row as the forecast sees it (line 122 has parsed the `Date`
    column back to calendar dates via `pd.to_datetime(...).dt.date`). -/
structure Expense where
  date : Date
  category : String
  amount : ℚ
  note : String
deriving DecidableEq, Repr

/-- Line 128: `expenses_df[expenses_df["Date"] >= start_of_month]["Amount"].sum()`.
    The boolean mask keeps the rows dated on or after the first of today's
    month — there is no upper bound on the date.  (Named `total_spent` at
    line 128; renamed here because line 151 reuses that name for the
    all-time total.) -/
def total_spent_month (exps : List Expense) (today : Date) : ℚ :=
  ((exps.filter fun e => date_le (start_of_month today) e.date).map Expense.amount).sum

/-- Month-to-date sum as the spec words it: rows whose date falls within
    [first day of today's month, today] inclusive.  Written only to be
    compared with `total_spent_month`, the value the code computes. -/
def month_to_date_spent_spec (exps : List Expense) (today : Date) : ℚ :=
  ((exps.filter fun e =>
      date_le (start_of_month today) e.date && date_le e.date today).map Expense.amount).sum

/-- Line 127: `(today - start_of_month).days + 1`.  Both dates lie in the
    same month, so the day difference is `today.day - 1` (truncated
    subtraction mirrors the fact that `today.day ≥ 1` for a real date). -/
def days_passed (today : Date) : Nat := (today.day - 1) + 1

/-- Line 129: `average_daily_spend = total_spent / days_passed`. -/
def average_daily_spend (exps : List Expense) (today : Date) : ℚ :=
  total_spent_month exps today / (days_passed today : ℚ)

/-- Python `int(q)` on a number: truncation toward zero. -/
def py_int (q : ℚ) : ℤ := if 0 ≤ q then ⌊q⌋ else -⌊-q⌋

/-- Line 132:
    `int(monthly_allowance / average_daily_spend) if average_daily_spend > 0 else 9999`. -/
def estimated_days_left (allowance avg : ℚ) : ℤ :=
  if 0 < avg then py_int (allowance / avg) else 9999

/-- Lines 125-132 composed: the estimated-days value the forecast block
    derives from the snapshot and today's date. -/
def forecast_days_left (allowance : ℚ) (exps : List Expense) (today : Date) : ℤ :=
  estimated_days_left allowance (average_daily_spend exps today)

/-- The two messages of lines 137-140. -/
inductive BudgetStatus
  | atRisk
  | onTrack
deriving DecidableEq, Repr

/-- Lines 124-142: the forecast renders only when the expense table is
    nonempty (`if not expenses_df.empty`), and lines 137-140 warn exactly
    when `estimated_days_left < 30`. -/
def forecast_status (allowance : ℚ) (exps : List Expense) (today : Date) :
    Option BudgetStatus :=
  if exps.isEmpty then none
  else some (if forecast_days_left allowance exps today < 30 then .atRisk else .onTrack)

/-- Line 151: `total_spent = expenses_df["Amount"].sum()` — every row,
    regardless of date. -/
def total_spent (exps : List Expense) : ℚ := (exps.map Expense.amount).sum

/-- Line 152: `remaining_budget = st.session_state["monthly_allowance"] - total_spent`. -/
def remaining_budget (allowance : ℚ) (exps : List Expense) : ℚ :=
  allowance - total_spent exps

/-- Line 165: `st.session_state["expenses"].groupby("Category")["Amount"].sum()` —
    one row per distinct category, carrying the sum of that category's
    amounts. -/
def pie_data (exps : List Expense) : List (String × ℚ) :=
  ((exps.map Expense.category).dedup).map fun c =>
    (c, ((exps.filter fun e => e.category == c).map Expense.amount).sum)

example : date_le ⟨2025, 6, 1⟩ ⟨2025, 6, 20⟩ = true := by decide
example : date_le ⟨2025, 6, 20⟩ ⟨2025, 6, 5⟩ = false := by decide
example : days_passed ⟨2025, 6, 5⟩ = 5 := by decide
example :
    total_spent_month [⟨⟨2025, 6, 20⟩, "Food", 100, ""⟩] ⟨2025, 6, 5⟩ = 100 := by
  simp [total_spent_month, date_le, start_of_month]
example :
    month_to_date_spent_spec [⟨⟨2025, 6, 20⟩, "Food", 100, ""⟩] ⟨2025, 6, 5⟩ = 0 := by
  simp [month_to_date_spent_spec, date_le, start_of_month]
example : estimated_days_left 5000 60 = 83 := by
  rw [estimated_days_left, if_pos (by norm_num), py_int, if_pos (by positivity)]
  rw [Int.floor_eq_iff]
  norm_num

/-! Ledger Store: the session snapshot and the persisted JSON file. -/

/-- Date cell of the session expense table.  A row added through the form
    (line 73) holds a `datetime.date`; a row loaded from the file (line 19)
    holds the serialized string — `load_data` does not parse dates back. -/
inductive DateVal
  | date (d : Date)
  | str (s : String)
deriving DecidableEq, Repr

/-- Session expense row: `{'Date': date, 'Category': category,
    'Amount': amount, 'Note': note}` (lines 73-78). -/
structure SessionExpense where
  date : DateVal
  category : String
  amount : ℚ
  note : String
deriving DecidableEq, Repr

/-- Recurring expense `{Name, Amount, Category}` (lines 96-100). -/
structure Recurring where
  name : String
  amount : ℚ
  category : String
deriving DecidableEq, Repr

/-- Saving goals are serialized and read back verbatim and never otherwise
    inspected by the code; each is modelled as its serialized JSON text. -/
abbrev SavingGoal := String

/-- The session snapshot (`st.session_state`), the four top-level keys. -/
structure Snapshot where
  monthly_allowance : ℚ
  expenses : List SessionExpense
  saving_goals : List SavingGoal
  recurring_expenses : List Recurring
deriving DecidableEq, Repr

/-- Contents of the persisted JSON file: a top-level key absent from the
    object is `none` (then `data.get(key, default)` falls back). -/
structure FileData where
  monthly_allowance : Option ℚ
  expenses : Option (List SessionExpense)
  saving_goals : Option (List SavingGoal)
  recurring_expenses : Option (List Recurring)
deriving DecidableEq, Repr

/-- Decimal digits padded to two places, as in ISO-8601 month and day. -/
def pad2 (n : Nat) : String := if n < 10 then "0" ++ toString n else toString n

/-- Year padded to four places, as Python `date.isoformat()` renders it. -/
def pad4 (n : Nat) : String :=
  if n < 10 then "000" ++ toString n
  else if n < 100 then "00" ++ toString n
  else if n < 1000 then "0" ++ toString n
  else toString n

/-- `str(datetime.date)` — the ISO-8601 string `YYYY-MM-DD`. -/
def iso_str (d : Date) : String :=
  pad4 d.year ++ "-" ++ pad2 d.month ++ "-" ++ pad2 d.day

/-- Line 26: `expenses["Date"].astype(str)` on one cell — a date object is
    rendered to its ISO string, a string cell is unchanged. -/
def date_cell_str : DateVal → String
  | .date d => iso_str d
  | .str s => s

/-- One row after line 26's `astype(str)` conversion. -/
def stringify_expense (e : SessionExpense) : SessionExpense :=
  { e with date := .str (date_cell_str e.date) }

/-- The whole snapshot with every expense date rendered to its ISO string —
    the "up to stable date formatting" image of a snapshot. -/
def stringify_snapshot (s : Snapshot) : Snapshot :=
  { s with expenses := s.expenses.map stringify_expense }

/-- Lines 24-35 `save_data`: serialize the whole snapshot, dates as
    strings.  JSON dump/parse is lossless on this data model, so the file
    is modelled by the structured values it encodes, every key present. -/
def save_data (s : Snapshot) : FileData :=
  { monthly_allowance := some s.monthly_allowance
    expenses := some (s.expenses.map stringify_expense)
    saving_goals := some s.saving_goals
    recurring_expenses := some s.recurring_expenses }

/-- Lines 14-21 `load_data`: when the file is absent the session state is
    left as it was; when present, all four keys are replaced, each falling
    back to its own default (`data.get(key, default)`) independently. -/
def load_data (file : Option FileData) (s : Snapshot) : Snapshot :=
  match file with
  | none => s
  | some d =>
    { monthly_allowance := d.monthly_allowance.getD 5000
      expenses := d.expenses.getD []
      saving_goals := d.saving_goals.getD []
      recurring_expenses := d.recurring_expenses.getD [] }

/-- Lines 38-41: the defaults installed before `load_data` runs. -/
def default_snapshot : Snapshot := ⟨5000, [], [], []⟩

/-- Lines 37-43: first-run initialization — defaults, then `load_data()`. -/
def init_session (file : Option FileData) : Snapshot :=
  load_data file default_snapshot

/-- Lines 95-102, the recurring-expense form handler:
    `if add_recurring and recurring_name:` appends `{Name, Amount,
    Category}` and calls `save_data()`; an empty name is falsy, so nothing
    happens.  Returns the recurring list and whether `save_data` ran. -/
def recurring_form_submit (recs : List Recurring) (add_recurring : Bool)
    (recurring_name : String) (recurring_amount : ℚ) (recurring_category : String) :
    List Recurring × Bool :=
  if add_recurring && !(recurring_name == "") then
    (recs ++ [⟨recurring_name, recurring_amount, recurring_category⟩], true)
  else (recs, false)

example : init_session none = default_snapshot := rfl
example :
    load_data (some ⟨some 7, none, none, none⟩) default_snapshot = ⟨7, [], [], []⟩ := rfl
example :
    recurring_form_submit [] true "" 100 "Subscription" = ([], false) := rfl

/-! Helper lemmas about filtered sums. -/

/-- Summing the amounts of the rows kept by a boolean mask is the same as
    summing, over all rows, the amount when the mask holds and 0 otherwise. -/
theorem sum_map_filter_eq_sum_ite (l : List Expense) (p : Expense → Bool) :
    ((l.filter p).map Expense.amount).sum
      = (l.map fun e => if p e then e.amount else 0).sum := by
  induction l with
  | nil => rfl
  | cons a t ih =>
    rw [List.filter_cons]
    by_cases hp : p a
    · rw [if_pos hp]
      simp only [List.map_cons, List.sum_cons, hp, if_true, ih]
    · rw [if_neg hp]
      simp only [List.map_cons, List.sum_cons, hp, if_false, ih]
      simp [hp]

/-- A mask under which every kept row has amount 0 yields sum 0. -/
theorem sum_map_filter_zero (l : List Expense) (p : Expense → Bool)
    (h : ∀ e ∈ l, p e = true → e.amount = 0) :
    ((l.filter p).map Expense.amount).sum = 0 := by
  induction l with
  | nil => rfl
  | cons a t ih =>
    have ht : ∀ e ∈ t, p e = true → e.amount = 0 :=
      fun e he hp => h e (List.mem_cons_of_mem a he) hp
    rw [List.filter_cons]
    by_cases hp : p a
    · rw [if_pos hp]
      simp only [List.map_cons, List.sum_cons, ih ht,
        h a (List.mem_cons_self a t) hp]
      norm_num
    · rw [if_neg hp]
      exact ih ht

/-! Claim C1. -/

/-- C1 (amended): the month-to-date spent value used by the forecast sums
    the amount of every expense dated on or after the first day of today's
    month, with no upper bound on the date; consequently an expense dated
    after today contributes its full amount. -/
theorem total_spent_month_row_rule :
    (∀ (exps : List Expense) (today : Date),
      total_spent_month exps today
        = (exps.map fun e =>
            if date_le (start_of_month today) e.date then e.amount else 0).sum)
    ∧ (∀ (exps : List Expense) (today : Date) (e : Expense),
      date_le (start_of_month today) e.date = true →
      total_spent_month (e :: exps) today = e.amount + total_spent_month exps today) := by
  constructor
  · intro exps today
    exact sum_map_filter_eq_sum_ite exps _
  · intro exps today e h
    unfold total_spent_month
    rw [List.filter_cons, if_pos h]
    simp

/-- Witness for C1's amended theorem at a concrete input: on 2025-06-05, an
    expense dated 2025-06-20 adds its amount of 100 to the forecast's
    month sum. -/
theorem total_spent_month_row_rule_witness :
    date_le (start_of_month ⟨2025, 6, 5⟩) ⟨2025, 6, 20⟩ = true ∧
    total_spent_month [⟨⟨2025, 6, 20⟩, "Food", 100, ""⟩] ⟨2025, 6, 5⟩
      = 100 + total_spent_month [] ⟨2025, 6, 5⟩ :=
  ⟨by decide,
   total_spent_month_row_rule.2 [] ⟨2025, 6, 5⟩ ⟨⟨2025, 6, 20⟩, "Food", 100, ""⟩ (by decide)⟩

/-- Counterexample to C1 as stated: today is 2025-06-05 and the only
    expense is dated 2025-06-20 — strictly after today — yet the value the
    forecast uses is 100, while the spec's [first-of-month, today] sum
    is 0. -/
theorem future_expense_counted_cex :
    date_le ⟨2025, 6, 20⟩ ⟨2025, 6, 5⟩ = false ∧
    total_spent_month [⟨⟨2025, 6, 20⟩, "Food", 100, ""⟩] ⟨2025, 6, 5⟩ = 100 ∧
    month_to_date_spent_spec [⟨⟨2025, 6, 20⟩, "Food", 100, ""⟩] ⟨2025, 6, 5⟩ = 0 := by
  refine ⟨by decide, ?_, ?_⟩
  · simp [total_spent_month, date_le, start_of_month]
  · simp [month_to_date_spent_spec, date_le, start_of_month]

/-! Claim C2. -/

/-- C2: saving a snapshot and loading it back yields the same snapshot with
    each expense date replaced by its ISO string; the formatting is stable,
    so a second save/load round trip is the identity. -/
theorem save_load_round_trip :
    (∀ s s0 : Snapshot, load_data (some (save_data s)) s0 = stringify_snapshot s)
    ∧ (∀ s : Snapshot, stringify_snapshot (stringify_snapshot s) = stringify_snapshot s) := by
  constructor
  · intro s s0
    rfl
  · intro s
    simp only [stringify_snapshot, List.map_map]
    have h : stringify_expense ∘ stringify_expense = stringify_expense :=
      funext fun e => rfl
    rw [h]

/-! Claim C4. -/

/-- C4: with no persisted file, initialization produces the default
    snapshot — allowance 5000 and the three collections empty, all four
    keys present. -/
theorem init_session_defaults :
    init_session none = default_snapshot
    ∧ (init_session none).monthly_allowance = 5000
    ∧ (init_session none).expenses = []
    ∧ (init_session none).recurring_expenses = []
    ∧ (init_session none).saving_goals = [] :=
  ⟨rfl, rfl, rfl, rfl, rfl⟩

/-! Claim C5. -/

/-- C5: the days-elapsed value equals today's day-of-month, is always at
    least 1, and the average daily spend is the forecast's month sum
    divided by it. -/
theorem days_passed_spec :
    (∀ today : Date, 1 ≤ today.day → days_passed today = today.day)
    ∧ (∀ today : Date, 1 ≤ days_passed today)
    ∧ (∀ (exps : List Expense) (today : Date),
        average_daily_spend exps today
          = total_spent_month exps today / (days_passed today : ℚ)) := by
  refine ⟨fun t h => ?_, fun t => ?_, fun exps t => rfl⟩
  · unfold days_passed
    omega
  · unfold days_passed
    omega

/-- Witness for C5 on 2025-06-05: five days have elapsed. -/
theorem days_passed_spec_witness : days_passed ⟨2025, 6, 5⟩ = 5 :=
  days_passed_spec.1 ⟨2025, 6, 5⟩ (by decide)

/-! Claim C6. -/

/-- C6: the remaining budget is the allowance minus the all-time total, and
    this genuinely differs from subtracting either month-scoped sum (shown
    at an input with an expense from a previous month). -/
theorem remaining_budget_all_time :
    (∀ (allowance : ℚ) (exps : List Expense),
      remaining_budget allowance exps = allowance - total_spent exps)
    ∧ (∃ (allowance : ℚ) (exps : List Expense) (today : Date),
        remaining_budget allowance exps ≠ allowance - month_to_date_spent_spec exps today
        ∧ remaining_budget allowance exps ≠ allowance - total_spent_month exps today) := by
  refine ⟨fun a exps => rfl,
    5000, [⟨⟨2025, 5, 10⟩, "Food", 100, ""⟩], ⟨2025, 6, 5⟩, ?_, ?_⟩
  · simp [remaining_budget, total_spent, month_to_date_spent_spec, date_le, start_of_month]
  · simp [remaining_budget, total_spent, total_spent_month, date_le, start_of_month]

/-! Claim C9. -/

/-- C9: submitting the recurring-expense form with an empty name leaves the
    list unchanged and does not save; with a non-empty name the record
    {Name, Amount, Category} is appended and the snapshot is saved. -/
theorem recurring_form_empty_name_noop :
    (∀ (recs : List Recurring) (amt : ℚ) (cat : String),
      recurring_form_submit recs true "" amt cat = (recs, false))
    ∧ (∀ (recs : List Recurring) (name : String) (amt : ℚ) (cat : String),
      name ≠ "" →
      recurring_form_submit recs true name amt cat = (recs ++ [⟨name, amt, cat⟩], true)) := by
  constructor
  · intro recs amt cat
    rfl
  · intro recs name amt cat h
    simp [recurring_form_submit, h]

/-- Witness for C9: an empty name is a no-op; "Netflix" is appended and
    saved. -/
theorem recurring_form_empty_name_noop_witness :
    recurring_form_submit [] true "" 50 "Subscription" = ([], false)
    ∧ recurring_form_submit [] true "Netflix" 199 "Subscription"
        = ([⟨"Netflix", 199, "Subscription"⟩], true) :=
  ⟨recurring_form_empty_name_noop.1 [] 50 "Subscription",
   recurring_form_empty_name_noop.2 [] "Netflix" 199 "Subscription" (by decide)⟩

/-! Claim C10. -/

/-- C10: each of the four top-level keys falls back to its own default
    when absent from the file, while each key that is present is taken from
    the file. -/
theorem load_data_per_key_defaults :
    ∀ d : FileData,
      (d.monthly_allowance = none → (init_session (some d)).monthly_allowance = 5000)
      ∧ (∀ a, d.monthly_allowance = some a → (init_session (some d)).monthly_allowance = a)
      ∧ (d.expenses = none → (init_session (some d)).expenses = [])
      ∧ (∀ l, d.expenses = some l → (init_session (some d)).expenses = l)
      ∧ (d.saving_goals = none → (init_session (some d)).saving_goals = [])
      ∧ (∀ l, d.saving_goals = some l → (init_session (some d)).saving_goals = l)
      ∧ (d.recurring_expenses = none → (init_session (some d)).recurring_expenses = [])
      ∧ (∀ l, d.recurring_expenses = some l →
          (init_session (some d)).recurring_expenses = l) := by
  intro d
  refine ⟨fun h => ?_, fun a h => ?_, fun h => ?_, fun l h => ?_,
    fun h => ?_, fun l h => ?_, fun h => ?_, fun l h => ?_⟩
  all_goals simp [init_session, load_data, h]

/-- Witness for C10: a file holding only an allowance of 1234 loads to a
    snapshot with allowance 1234 and the three collections empty. -/
theorem load_data_per_key_defaults_witness :
    (init_session (some ⟨some 1234, none, none, none⟩)).monthly_allowance = 1234
    ∧ (init_session (some ⟨some 1234, none, none, none⟩)).expenses = []
    ∧ (init_session (some ⟨some 1234, none, none, none⟩)).saving_goals = []
    ∧ (init_session (some ⟨some 1234, none, none, none⟩)).recurring_expenses = [] :=
  ⟨(load_data_per_key_defaults ⟨some 1234, none, none, none⟩).2.1 1234 rfl,
   (load_data_per_key_defaults ⟨some 1234, none, none, none⟩).2.2.1 rfl,
   (load_data_per_key_defaults ⟨some 1234, none, none, none⟩).2.2.2.2.1 rfl,
   (load_data_per_key_defaults ⟨some 1234, none, none, none⟩).2.2.2.2.2.2.1 rfl⟩

/-! Claim C3. -/

/-- C3 (amended): the estimate is `floor(allowance / avg)` for positive
    average daily spend and the 9999 sentinel when the average is zero; the
    sentinel is reached whenever every expense dated on or after the first
    of today's month — the rows the forecast actually sums — has amount 0. -/
theorem estimated_days_left_spec :
    (∀ a d : ℚ, 0 ≤ a → 0 < d → estimated_days_left a d = ⌊a / d⌋)
    ∧ (∀ a : ℚ, estimated_days_left a 0 = 9999)
    ∧ (∀ (a : ℚ) (exps : List Expense) (today : Date),
        (∀ e ∈ exps, date_le (start_of_month today) e.date = true → e.amount = 0) →
        forecast_days_left a exps today = 9999) := by
  refine ⟨fun a d ha hd => ?_, fun a => ?_, fun a exps today h => ?_⟩
  · unfold estimated_days_left py_int
    rw [if_pos hd, if_pos (div_nonneg ha hd.le)]
  · unfold estimated_days_left
    norm_num
  · have h0 : total_spent_month exps today = 0 := by
      unfold total_spent_month
      exact sum_map_filter_zero exps _ h
    unfold forecast_days_left average_daily_spend
    rw [h0]
    norm_num [estimated_days_left]

/-- Witness for C3's amended theorem: a positive average of 60 against an
    allowance of 5000 gives the floor estimate, and a snapshot whose only
    in-month expense has amount 0 reaches the 9999 sentinel. -/
theorem estimated_days_left_spec_witness :
    estimated_days_left 5000 60 = ⌊(5000 : ℚ) / 60⌋
    ∧ forecast_days_left 5000 [⟨⟨2025, 6, 2⟩, "Food", 0, ""⟩] ⟨2025, 6, 5⟩ = 9999 := by
  constructor
  · exact estimated_days_left_spec.1 5000 60 (by norm_num) (by norm_num)
  · apply estimated_days_left_spec.2.2
    intro e he hd
    rw [List.mem_singleton] at he
    subst he
    rfl

/-- Counterexample to C3 as stated: on 2025-06-05 with a single expense of
    100 dated 2025-06-20, no expense lies in [first-of-month, today] — so
    every month-to-date amount is (vacuously) zero — yet the estimate is
    250, not the 9999 sentinel, because the forecast also sums expenses
    dated after today. -/
theorem unlimited_without_mtd_spend_cex :
    (([⟨⟨2025, 6, 20⟩, "Food", 100, ""⟩] : List Expense).filter fun e =>
        date_le (start_of_month ⟨2025, 6, 5⟩) e.date && date_le e.date ⟨2025, 6, 5⟩) = []
    ∧ forecast_days_left 5000 [⟨⟨2025, 6, 20⟩, "Food", 100, ""⟩] ⟨2025, 6, 5⟩ = 250
    ∧ (250 : ℤ) ≠ 9999 := by
  refine ⟨by simp [date_le, start_of_month], ?_, by decide⟩
  have havg :
      average_daily_spend [⟨⟨2025, 6, 20⟩, "Food", 100, ""⟩] ⟨2025, 6, 5⟩ = 20 := by
    norm_num [average_daily_spend, total_spent_month, date_le, start_of_month, days_passed]
  rw [forecast_days_left, havg, estimated_days_left, if_pos (by norm_num), py_int,
    if_pos (by norm_num)]
  rw [show (5000 : ℚ) / 20 = 250 by norm_num]
  rw [Int.floor_eq_iff]
  norm_num

/-! Claim C7. -/

/-- C7: with at least one expense recorded, the warning state is signalled
    exactly when the estimated days value is strictly below 30, the
    on-track state otherwise; in particular the 9999 sentinel is on track. -/
theorem forecast_status_threshold :
    ∀ (a : ℚ) (exps : List Expense) (today : Date), exps ≠ [] →
      (forecast_status a exps today = some .atRisk
          ↔ forecast_days_left a exps today < 30)
      ∧ (forecast_status a exps today = some .onTrack
          ↔ ¬ forecast_days_left a exps today < 30)
      ∧ (forecast_days_left a exps today = 9999 →
          forecast_status a exps today = some .onTrack) := by
  intro a exps today h
  have hne : exps.isEmpty = false := by simp [List.isEmpty_iff, h]
  by_cases hlt : forecast_days_left a exps today < 30
  · refine ⟨?_, ?_, ?_⟩
    · simp [forecast_status, hne, hlt]
    · simp [forecast_status, hne, hlt]
    · intro h9
      rw [h9] at hlt
      norm_num at hlt
  · refine ⟨?_, ?_, ?_⟩
    · simp [forecast_status, hne, hlt]
    · simp [forecast_status, hne, hlt]
    · intro h9
      simp [forecast_status, hne, hlt]

/-- Witness for C7 at the spec's at-risk scenario: allowance 1000, one
    expense of 900 on the 1st, today the 3rd — the estimate is 3 days and
    the warning state is signalled. -/
theorem forecast_status_threshold_witness :
    forecast_status 1000 [⟨⟨2025, 6, 1⟩, "Rent", 900, ""⟩] ⟨2025, 6, 3⟩
      = some BudgetStatus.atRisk := by
  have hval : forecast_days_left 1000 [⟨⟨2025, 6, 1⟩, "Rent", 900, ""⟩] ⟨2025, 6, 3⟩ = 3 := by
    have havg :
        average_daily_spend [⟨⟨2025, 6, 1⟩, "Rent", 900, ""⟩] ⟨2025, 6, 3⟩ = 300 := by
      norm_num [average_daily_spend, total_spent_month, date_le, start_of_month, days_passed]
    rw [forecast_days_left, havg, estimated_days_left, if_pos (by norm_num), py_int,
      if_pos (by norm_num)]
    rw [Int.floor_eq_iff]
    norm_num
  exact ((forecast_status_threshold 1000 [⟨⟨2025, 6, 1⟩, "Rent", 900, ""⟩] ⟨2025, 6, 3⟩
    (by simp)).1).mpr (by rw [hval]; norm_num)

/-! Claim C8. -/

/-- A boolean mask and its complement split the total of the amounts. -/
theorem sum_map_filter_split (l : List Expense) (p : Expense → Bool) :
    ((l.filter p).map Expense.amount).sum
      + ((l.filter fun e => !(p e)).map Expense.amount).sum
      = (l.map Expense.amount).sum := by
  induction l with
  | nil => simp
  | cons a t ih =>
    rw [List.filter_cons, List.filter_cons]
    cases hp : p a
    · rw [if_neg (by simp [hp]), if_pos (by simp [hp])]
      simp only [List.map_cons, List.sum_cons]
      rw [← ih]
      ring
    · rw [if_pos (by simp [hp]), if_neg (by simp [hp])]
      simp only [List.map_cons, List.sum_cons]
      rw [← ih]
      ring

/-- Removing the rows of one category does not change any other category's
    fiber. -/
theorem filter_fiber_of_ne (exps : List Expense) (c c' : String) (h : c' ≠ c) :
    ((exps.filter fun e => !(e.category == c)).filter fun e => e.category == c')
      = exps.filter fun e => e.category == c' := by
  induction exps with
  | nil => rfl
  | cons a t ih =>
    by_cases h1 : a.category = c
    · have hc' : ¬ a.category = c' := fun hh => h (hh.symm.trans h1)
      simp [List.filter_cons, h1, hc', Ne.symm h, ih]
    · by_cases h2 : a.category = c'
      · simp [List.filter_cons, h1, h2, h, ih]
      · simp [List.filter_cons, h1, h2, ih]

/-- Summing every category fiber of a list of categories that is duplicate
    free and covers all rows reproduces the total of the amounts. -/
theorem fiber_sums_eq_total (cats : List String) :
    ∀ exps : List Expense, cats.Nodup → (∀ e ∈ exps, e.category ∈ cats) →
      (cats.map fun c =>
          ((exps.filter fun e => e.category == c).map Expense.amount).sum).sum
        = (exps.map Expense.amount).sum := by
  induction cats with
  | nil =>
    intro exps _ hall
    have hnil : exps = [] :=
      List.eq_nil_iff_forall_not_mem.mpr fun e he =>
        List.not_mem_nil e.category (hall e he)
    subst hnil
    rfl
  | cons c cs ih =>
    intro exps hnd hall
    obtain ⟨hc, hnd'⟩ := List.nodup_cons.mp hnd
    have hall' : ∀ e ∈ exps.filter fun e => !(e.category == c), e.category ∈ cs := by
      intro e he
      obtain ⟨hmem, hneq⟩ := List.mem_filter.mp he
      cases List.mem_cons.mp (hall e hmem) with
      | inl h1 => simp [h1] at hneq
      | inr h2 => exact h2
    have hrest :
        (cs.map fun c' =>
            ((exps.filter fun e => e.category == c').map Expense.amount).sum)
          = cs.map fun c' =>
              (((exps.filter fun e => !(e.category == c)).filter
                  fun e => e.category == c').map Expense.amount).sum := by
      apply List.map_congr_left
      intro c' hc'
      rw [filter_fiber_of_ne exps c c' fun hh => hc (hh ▸ hc')]
    rw [List.map_cons, List.sum_cons, hrest, ih _ hnd' hall']
    exact sum_map_filter_split exps fun e => e.category == c

/-- C8: the per-category sums of the category breakdown add up to the
    all-time total spent — the breakdown partitions the expense rows. -/
theorem pie_data_partition :
    ∀ exps : List Expense, ((pie_data exps).map Prod.snd).sum = total_spent exps := by
  intro exps
  unfold pie_data total_spent
  rw [List.map_map]
  exact fiber_sums_eq_total ((exps.map Expense.category).dedup) exps
    (List.nodup_dedup _)
    (fun e he => List.mem_dedup.mpr (List.mem_map_of_mem Expense.category he))
